import Mathlib

/-!
Shallow embedding of the ACR122Upy repository (Python) in Lean 4.

Source files embedded:
  * `src/acr122upy/device/acr122u.py`  — device class `ACR122u`
  * `src/acr122upy/cards/mifare.py`    — default key catalog
  * `src/acr122upy/cards/factory.py`   — card factory lookup table
  * `src/acr122upy/__main__.py`        — key-search driver

Python conventions modelled explicitly:
  * a `dict` literal with duplicate keys keeps the *last* binding for a key
    (modelled by a left fold over the entry list, later entries overwriting);
  * `assert` failures and type errors are modelled with `Except String`;
  * values that may be a tuple or a string (the card `type` attribute) are
    modelled with an explicit sum (`CardType`), and `x[1]` on such a value is
    modelled by `type_index1`, which returns the one-character string for a
    Python string and the second tuple component for a tuple.
-/

namespace ACR122Upy

/-! ## Hex string helpers (smartcard.util.toHexString and int(x, base=16)) -/

/-- One uppercase hexadecimal digit, as produced by `toHexString`. -/
def hexDigit (n : Nat) : Char :=
  if n < 10 then Char.ofNat (48 + n) else Char.ofNat (55 + n)

/-- Two-digit uppercase hex rendering of one byte, as in `toHexString`. -/
def byteToHex (b : Nat) : String :=
  String.mk [hexDigit (b / 16), hexDigit (b % 16)]

/-- `smartcard.util.toHexString`: bytes rendered as space-separated
uppercase hex pairs. -/
def toHexString (bs : List Nat) : String :=
  String.intercalate " " (bs.map byteToHex)

/-- Value of one hexadecimal character (as accepted by `int(x, base=16)` for
the uppercase strings `toHexString` produces). -/
def hexCharVal (c : Char) : Nat :=
  if 48 ≤ c.toNat ∧ c.toNat ≤ 57 then c.toNat - 48
  else if 65 ≤ c.toNat ∧ c.toNat ≤ 70 then c.toNat - 55
  else if 97 ≤ c.toNat ∧ c.toNat ≤ 102 then c.toNat - 87
  else 0

/-- `int(x, base=16)` on the tokens occurring in this program (well-formed
hex strings; malformed tokens, which would raise in Python, fold to a junk
value that no claim depends on). -/
def intBase16 (s : String) : Nat :=
  s.toList.foldl (fun a c => 16 * a + hexCharVal c) 0

/-! ## Response classifier (`ACR122u.parse_response`, acr122u.py lines 148-161) -/

/-- The raw result of `CardConnection.transmit`: `(data, sw1, sw2)`. -/
structure TransmitResult where
  data : List Nat
  sw1  : Nat
  sw2  : Nat
deriving DecidableEq

/-- The `cmd_response` namedtuple `(data, sw1, sw2, message)`; the fields are
the hex strings actually stored by `parse_response`. -/
structure CmdResponse where
  data    : String
  sw1     : String
  sw2     : String
  message : String
deriving DecidableEq

/-- The status-word classification inside `parse_response`: the `message`
field computed from `(sw1, sw2)` by the if/elif chain. -/
def parse_message (sw1 sw2 : Nat) : String :=
  if sw1 = 0x90 ∧ sw2 = 0x00 then "Success"
  else if sw1 = 0x63 ∧ sw2 = 0x00 then "Failed"
  else if sw1 = 0x6A ∧ sw2 = 0x81 then "Not Supported"
  else "Unknown"

/-- `ACR122u.parse_response`: destructures `(data, sw1, sw2)` and builds the
`cmd_response` namedtuple with hex-string fields and the classified message. -/
def parse_response (r : TransmitResult) : CmdResponse :=
  { data    := toHexString r.data
    sw1     := toHexString [r.sw1]
    sw2     := toHexString [r.sw2]
    message := parse_message r.sw1 r.sw2 }

/-! ## Card-type lookup tables

`_PARSER_CARD` (acr122u.py lines 21-31) and `CardFactory.__parser`
(factory.py lines 14-24) are Python dict literals.  A dict literal binds its
entries in order and a later duplicate key overwrites an earlier one, so both
are modelled as entry lists together with `dictLookup`, a left fold in which
later entries win. -/

/-- The entry list of the `_PARSER_CARD` dict literal, in source order
(note the duplicated key `(0xF0, 0x11)`). -/
def parserCardEntries : List ((Nat × Nat) × (String × Nat)) :=
  [ ((0x00, 0x01), ("MIFARE Classic 1K", 0x040)),
    ((0x00, 0x02), ("MIFARE Classic 4K", 0x100)),
    ((0x00, 0x03), ("MIFARE Ultralight", 0xFFFFFFFF)),
    ((0x00, 0x26), ("MIFARE Mini",       0xFFFFFFFF)),
    ((0xF0, 0x04), ("Topaz and Jewel",   0xFFFFFFFF)),
    ((0xF0, 0x11), ("FeliCa 212K",       0xFFFFFFFF)),
    ((0xF0, 0x11), ("FeliCa 424K",       0xFFFFFFFF)) ]

/-- The entry list of the `CardFactory.__parser` dict literal, in source
order (same duplicated key `(0xF0, 0x11)`). -/
def factoryEntries : List ((Nat × Nat) × String) :=
  [ ((0x00, 0x01), "MIFARE Classic 1K"),
    ((0x00, 0x02), "MIFARE Classic 4K"),
    ((0x00, 0x03), "MIFARE Ultralight"),
    ((0x00, 0x26), "MIFARE Mini"),
    ((0xF0, 0x04), "Topaz and Jewel"),
    ((0xF0, 0x11), "FeliCa 212K"),
    ((0xF0, 0x11), "FeliCa 424K") ]

/-- Lookup in a Python dict built from an entry list: construction inserts
entries left to right, a later entry overwriting an earlier one with the
same key; `d.get(k)` then returns the surviving binding, if any. -/
def dictLookup {α : Type} (entries : List ((Nat × Nat) × α)) (k : Nat × Nat) :
    Option α :=
  entries.foldl (fun acc e => if e.1 = k then some e.2 else acc) none

/-- The Python value stored into `card.type` by `ACR122u.update_card`: either
a `(label, blocks)` tuple from `_PARSER_CARD`, or the plain string
`'UNKNOWN'` that `.get` returns as its default. -/
inductive CardType where
  | known (label : String) (blocks : Nat)
  | unknownStr (s : String)
deriving DecidableEq

/-- `_PARSER_CARD.get(key, 'UNKNOWN')`. -/
def parserCardGet (k : Nat × Nat) : CardType :=
  match dictLookup parserCardEntries k with
  | some (l, b) => CardType.known l b
  | none        => CardType.unknownStr "UNKNOWN"

/-- Clamp one Python slice endpoint to `[0, len]` (negative indices count
from the end, as in `a[-7:-5]`). -/
def pySliceIndex (len : Nat) (i : Int) : Nat :=
  if i < 0 then ((len : Int) + i).toNat else min i.toNat len

/-- Python list slice `a[i:j]` (step 1). -/
def pySlice {α : Type} (a : List α) (i j : Int) : List α :=
  (a.take (pySliceIndex a.length j)).drop (pySliceIndex a.length i)

/-- `tuple(card.atr[-7:-5])` fed through `_PARSER_CARD.get(..., 'UNKNOWN')`:
a slice of exactly two bytes can match a two-tuple dict key; any other
length never matches and falls back to the `'UNKNOWN'` default. -/
def cardTypeOfAtr (atr : List Nat) : CardType :=
  match pySlice atr (-7) (-5) with
  | [a, b] => parserCardGet (a, b)
  | _      => CardType.unknownStr "UNKNOWN"

/-! ## Session state and hotplug updates
(`ACR122u.update`, acr122u.py lines 58-73; `ACR122u.update_card`,
lines 75-99).  The `_refreshed` timestamp only feeds the `_stall` sleep and
is not part of any tracked-handle claim, so the session model carries the
two handles. -/

/-- A pyscard reader handle: what `update` reads from it is its `name`. -/
structure Reader where
  name : String
deriving DecidableEq

/-- A pyscard card handle as delivered by the card monitor: its ATR bytes
and the name of the reader it sits on.  pyscard card equality compares
these two fields. -/
structure PCard where
  atr        : List Nat
  readerName : String
deriving DecidableEq

/-- The tracked card after `update_card` stamped its `type` attribute. -/
structure TrackedCard where
  card : PCard
  type : CardType
deriving DecidableEq

/-- The session handles of an `ACR122u` instance: `__reader` and `__card`. -/
structure SessionState where
  reader : Option Reader
  card   : Option TrackedCard
deriving DecidableEq

/-- The reader-name filter `not self.__filter or self.__filter in reader.name`
(empty filter matches everything, otherwise substring containment). -/
def matchesFilter (filter : String) (name : String) : Bool :=
  filter == "" || decide (filter.toList <:+: name.toList)

/-- `ACR122u.update`: every added reader matching the filter becomes the
tracked reader (later additions overwrite), then every removed reader
matching the filter clears the tracked reader.  The tracked card is not
touched. -/
def update (filter : String) (s : SessionState) (rnew rold : List Reader) :
    SessionState :=
  let s1 := rnew.foldl
    (fun st r =>
      if matchesFilter filter r.name then { st with reader := some r } else st)
    s
  rold.foldl
    (fun st r =>
      if matchesFilter filter r.name then { st with reader := none } else st)
    s1

/-- `ACR122u.update_card`: a no-op unless a reader is tracked.  Added cards
are filtered to those sitting on the tracked reader (at most one by the
`assert`, modelled as `Except.error`), stamped with their parsed type and
tracked; then removed cards equal to the (possibly just-tracked) card are
filtered (again at most one) and, if present, the tracked card is cleared.
`x == self.__card` is `False` whenever no card is tracked. -/
def update_card (s : SessionState) (cnew cold : List PCard) :
    Except String SessionState :=
  match s.reader with
  | none => Except.ok s
  | some rd =>
    let listNew := cnew.filter (fun c => rd.name == c.readerName)
    if listNew.length ≤ 1 then
      let s1 := listNew.foldl
        (fun st c => { st with card := some ⟨c, cardTypeOfAtr c.atr⟩ }) s
      let listOld : List PCard := match s1.card with
        | none    => []
        | some tc => cold.filter (fun c => c == tc.card)
      if listOld.length ≤ 1 then
        Except.ok (if listOld.length = 1 then { s1 with card := none } else s1)
      else Except.error "AssertionError"
    else Except.error "AssertionError"

/-- A concrete ACR122U reader handle (name contains the default filter
string `'ACR122U'`). -/
def demoReader : Reader := ⟨"ACS ACR122U PICC Interface 00 00"⟩

/-- A concrete MIFARE Classic 1K card on that reader: `atr[-7:-5]` is
`(0x00, 0x01)`. -/
def demoCard : PCard :=
  ⟨[0x3B, 0x8F, 0x80, 0x01, 0x80, 0x4F, 0x0C, 0xA0, 0x00, 0x00, 0x03, 0x06,
    0x03, 0x00, 0x01, 0x00, 0x00, 0x00, 0x00, 0x6A],
   "ACS ACR122U PICC Interface 00 00"⟩

/-! ## Block bounds (`ACR122u._block_max`, acr122u.py lines 257-261) and the
Python comparison `0 <= block < self._block_max()` -/

/-- A Python value that is either an int or a string (what `card.type[1]`
can evaluate to). -/
inductive PyVal where
  | int (n : Nat)
  | str (s : String)
deriving DecidableEq

/-- Python `x[1]` on a `card.type` value: the second component of the
`(label, blocks)` tuple, or the one-character string at index 1 of the
`'UNKNOWN'` string (an `IndexError` if the string were shorter). -/
def type_index1 (t : CardType) : Except String PyVal :=
  match t with
  | CardType.known _ blocks => Except.ok (PyVal.int blocks)
  | CardType.unknownStr s =>
    match s.toList.get? 1 with
    | some c => Except.ok (PyVal.str (String.mk [c]))
    | none   => Except.error "IndexError"

/-- `ACR122u._block_max`: `self.__card.type[1] if self.__card else 0xFFFFFFFF`. -/
def block_max (card : Option TrackedCard) : Except String PyVal :=
  match card with
  | some c => type_index1 c.type
  | none   => Except.ok (PyVal.int 0xFFFFFFFF)

/-- The guard `0 <= block < self._block_max()` of the asserts in
`__commit_auth` and `block_read`.  `0 <= block` always holds for a natural
`block`; `block < x` is an int comparison when `x` is an int and raises
`TypeError` when `x` is a string. -/
def blockBoundOk (card : Option TrackedCard) (block : Nat) :
    Except String Bool :=
  match block_max card with
  | Except.error e         => Except.error e
  | Except.ok (PyVal.int n) => Except.ok (decide (block < n))
  | Except.ok (PyVal.str _) => Except.error "TypeError"

/-! ## APDU command construction and the command methods
(acr122u.py lines 167-236).  Each method is modelled against an abstract
`transmit` oracle standing for one successful `execute` round trip, and
returns the parsed response (`Except.error` for an assert/type failure)
together with the list of commands it transmitted, in order. -/

/-- The byte sequence built by `__load_auth_key`:
`[0xFF, 0x82, 0x00, key_number, 0x06] + key`. -/
def loadAuthKeyCmd (key : List Nat) (key_number : Nat) : List Nat :=
  [0xFF, 0x82, 0x00, key_number, 0x06] ++ key

/-- The byte sequence built by `__commit_auth`:
`[0xFF, 0x86, 0x00, 0x00, 0x05] + [0x01, 0x00, block, 0x60 + key_type,
key_number]`. -/
def commitAuthCmd (block key_type key_number : Nat) : List Nat :=
  [0xFF, 0x86, 0x00, 0x00, 0x05] ++
    [0x01, 0x00, block, 0x60 + key_type, key_number]

/-- The byte sequence built by `block_read`:
`[0xFF, 0xB0, 0x00, block, length]`. -/
def blockReadCmd (block length : Nat) : List Nat :=
  [0xFF, 0xB0, 0x00, block, length]

/-- `ACR122u.__load_auth_key`: asserts the key is a 6-byte int list and the
slot is 0 or 1 (list-of-int is carried by the `List Nat` type), then
transmits the load command and parses the response. -/
def load_auth_key (transmit : List Nat → TransmitResult) (key : List Nat)
    (key_number : Nat) : Except String CmdResponse × List (List Nat) :=
  if key.length = 6 ∧ (key_number = 0 ∨ key_number = 1) then
    (Except.ok (parse_response (transmit (loadAuthKeyCmd key key_number))),
     [loadAuthKeyCmd key key_number])
  else (Except.error "AssertionError", [])

/-- `ACR122u.__commit_auth`: asserts `0 <= block < self._block_max()`
(which can raise `TypeError`, see `blockBoundOk`), then transmits the
commit command and parses the response. -/
def commit_auth (transmit : List Nat → TransmitResult)
    (card : Option TrackedCard) (block key_type key_number : Nat) :
    Except String CmdResponse × List (List Nat) :=
  match blockBoundOk card block with
  | Except.error e  => (Except.error e, [])
  | Except.ok false => (Except.error "AssertionError", [])
  | Except.ok true  =>
    (Except.ok (parse_response (transmit (commitAuthCmd block key_type key_number))),
     [commitAuthCmd block key_type key_number])

/-- `ACR122u.auth`: loads the key into slot `key_type`; if the load
response's last field (`message`) is `'Success'`, commits authentication
for `block` with `key_type`, again with slot `key_type`; otherwise returns
the load response unchanged. -/
def auth (transmit : List Nat → TransmitResult) (card : Option TrackedCard)
    (key : List Nat) (block key_type : Nat) :
    Except String CmdResponse × List (List Nat) :=
  match load_auth_key transmit key key_type with
  | (Except.error e, t1) => (Except.error e, t1)
  | (Except.ok r1, t1) =>
    if r1.message == "Success" then
      let (r2, t2) := commit_auth transmit card block key_type key_type
      (r2, t1 ++ t2)
    else (Except.ok r1, t1)

/-- `ACR122u.block_read`: asserts the block bound (possible `TypeError`),
asserts `0 <= length <= 16`, then transmits the read command. -/
def block_read (transmit : List Nat → TransmitResult)
    (card : Option TrackedCard) (block length : Nat) :
    Except String CmdResponse × List (List Nat) :=
  match blockBoundOk card block with
  | Except.error e  => (Except.error e, [])
  | Except.ok false => (Except.error "AssertionError", [])
  | Except.ok true  =>
    if length ≤ 16 then
      (Except.ok (parse_response (transmit (blockReadCmd block length))),
       [blockReadCmd block length])
    else (Except.error "AssertionError", [])

/-- A card whose ATR type code `atr[-7:-5]` is the unrecognized pair
`(0x12, 0x34)`. -/
def unknownDemoCard : PCard :=
  ⟨[0x3B, 0x8F, 0x80, 0x01, 0x80, 0x4F, 0x0C, 0xA0, 0x00, 0x00, 0x03, 0x06,
    0x03, 0x12, 0x34, 0x00, 0x00, 0x00, 0x00, 0x6A],
   "ACS ACR122U PICC Interface 00 00"⟩

/-! ## Command executor (`ACR122u.execute`, acr122u.py lines 123-145)

The loop `while (time() - t_start) < timeout` observes the truthiness of
`self.__card` once per iteration; the clock is monotone, so only finitely
many iterations see `time() - t_start < timeout`.  `executeLoop` takes that
finite observation sequence explicitly, together with the truthiness of
`self.__reader` / `self.__card` at the moment the timeout branch runs, and
`transmitAttempt` models one card-present loop body (lines 130-137). -/

/-- Observable steps of the transient-connection lifecycle inside one
card-present iteration of `execute`. -/
inductive ConnEvent where
  | created
  | connected
  | transmitted
  | released
deriving DecidableEq

/-- Lines 130-137 of `execute`: `createConnection()` (the `connection`
attribute is set — `created`), `connect()` (which may raise), then
`try: return transmit(command) finally: del connection`.  The `finally`
releases the connection whether `transmit` returns (`transmitted` then
`released`) or raises (`released`, error propagated).  A raise in
`connect()` happens before the `try`, so nothing is released on that path. -/
def transmitAttempt {α : Type} (connectRaises : Bool)
    (transmitResult : Except String α) : List ConnEvent × Except String α :=
  if connectRaises then
    ([ConnEvent.created], Except.error "CardConnectionException")
  else
    match transmitResult with
    | Except.ok v =>
      ([ConnEvent.created, ConnEvent.connected, ConnEvent.transmitted,
        ConnEvent.released], Except.ok v)
    | Except.error e =>
      ([ConnEvent.created, ConnEvent.connected, ConnEvent.released],
       Except.error e)

/-- The `execute` loop and its `while/else` timeout branch (lines 128-145):
each in-timeout observation of a truthy `self.__card` runs the transmit
attempt and returns its outcome; when the observations are exhausted the
timeout branch raises `'No reader is connected with USB'` if no reader is
tracked, else `'No tag is connected'` if no card is tracked, else
`'Fatal error'`. -/
def executeLoop {α : Type} (attempt : Unit → List ConnEvent × Except String α)
    (obs : List Bool) (readerAtTimeout cardAtTimeout : Bool) :
    List ConnEvent × Except String α :=
  match obs with
  | [] =>
    ([], Except.error
      (if readerAtTimeout = false then "No reader is connected with USB"
       else if cardAtTimeout = false then "No tag is connected"
       else "Fatal error"))
  | true :: _ => attempt ()
  | false :: rest => executeLoop attempt rest readerAtTimeout cardAtTimeout

/-! ## Default key catalog and the key-search driver
(`_DEFAULT_KEYS` / `CardMifareClassic.default_keys`, mifare.py lines 83-98
and 153-155; search loops of `main`, __main__.py lines 30-35) -/

/-- The `_DEFAULT_KEYS` catalog, in source order, as yielded by
`CardMifareClassic.default_keys()`. -/
def default_keys : List (List Nat) :=
  [ [0xFF, 0xFF, 0xFF, 0xFF, 0xFF, 0xFF],
    [0xA0, 0xB0, 0xC0, 0xD0, 0xE0, 0xF0],
    [0xA1, 0xB1, 0xC1, 0xD1, 0xE1, 0xF1],
    [0xA0, 0xA1, 0xA2, 0xA3, 0xA4, 0xA5],
    [0xB0, 0xB1, 0xB2, 0xB3, 0xB4, 0xB5],
    [0x4D, 0x3A, 0x99, 0xC3, 0x51, 0xDD],
    [0x1A, 0x98, 0x2C, 0x7E, 0x45, 0x9A],
    [0x00, 0x00, 0x00, 0x00, 0x00, 0x00],
    [0xAA, 0xBB, 0xCC, 0xDD, 0xEE, 0xFF],
    [0xD3, 0xF7, 0xD3, 0xF7, 0xD3, 0xF7],
    [0xAA, 0xBB, 0xCC, 0xDD, 0xEE, 0xFF],
    [0x71, 0x4C, 0x5C, 0x88, 0x6E, 0x97],
    [0x58, 0x7E, 0xE5, 0xF9, 0x35, 0x0F],
    [0xA0, 0x47, 0x8C, 0xC3, 0x90, 0x91],
    [0x53, 0x3C, 0xB6, 0xC7, 0x23, 0xF6],
    [0x8F, 0xD0, 0xA4, 0xF2, 0x56, 0xE9] ]

/-- The inner loop of `main`'s search for one `(block, key_type)`
combination: try keys in order, stop (`break`) at the first whose
`auth(...)[-1]` is `'Success'`.  Returns the keys tried, in order, and the
reported key if any.  `authMessage` abstracts
`reader.auth(key, block=block, key_type=ktype)[-1]` for the fixed
combination. -/
def searchKeyLoop (authMessage : List Nat → String) :
    List (List Nat) → List (List Nat) × Option (List Nat)
  | [] => ([], none)
  | k :: rest =>
    if authMessage k == "Success" then ([k], some k)
    else
      let (tried, found) := searchKeyLoop authMessage rest
      (k :: tried, found)

/-- The key search for one `(block, key_type)` combination over the
default-key catalog. -/
def searchCombo (authMessage : Nat → Nat → List Nat → String)
    (block ktype : Nat) : List (List Nat) × Option (List Nat) :=
  searchKeyLoop (authMessage block ktype) default_keys

/-- The full nest of `main`'s search loops: `for block in range(64): for
ktype in range(2): ...`, collecting each combination's reported key in
iteration order. -/
def keySearch (authMessage : Nat → Nat → List Nat → String) :
    List (Nat × Nat × Option (List Nat)) :=
  (List.range 64).foldl (fun acc block =>
    (List.range 2).foldl (fun acc2 ktype =>
      acc2 ++ [(block, ktype, (searchCombo authMessage block ktype).2)]) acc)
    []

/-- A mocked card for the search scenario: authentication reports
`'Success'` only on block 3, key type 1, with catalog key index 5. -/
def mockAuthMessage (block ktype : Nat) (key : List Nat) : String :=
  if block = 3 ∧ ktype = 1 ∧ key = [0x4D, 0x3A, 0x99, 0xC3, 0x51, 0xDD] then
    "Success"
  else "Failed"

/-! ## Firmware caching (`ACR122u.firmware`, acr122u.py lines 242-254) -/

/-- The firmware-version command `[0xFF, 0x00, 0x48, 0x00, 0x00]`. -/
def firmwareCmd : List Nat := [0xFF, 0x00, 0x48, 0x00, 0x00]

/-- The decode step of the `firmware` property:
`''.join(chr(int(x, base=16)) for x in (result.data.split(' ') +
[result.sw1, result.sw2]))`. -/
def firmwareDecode (r : CmdResponse) : String :=
  String.mk
    ((r.data.splitOn " " ++ [r.sw1, r.sw2]).map (fun x => Char.ofNat (intBase16 x)))

/-- One read of the `firmware` property as a function of the cache field
`__firmware`: if the cache is `None`, execute the firmware command, decode,
store and return the string (third component counts the `execute` calls
made by this read); otherwise return the cached string without executing. -/
def firmwareRead (execute : List Nat → TransmitResult)
    (cache : Option String) : String × Option String × Nat :=
  match cache with
  | some fw => (fw, some fw, 0)
  | none =>
    let fw := firmwareDecode (parse_response (execute firmwareCmd))
    (fw, some fw, 1)

end ACR122Upy

namespace ACR122Upy

/-- C5: `parse_response`'s outcome field (`message`) is a total function of
the status-word pair: `"Success"` exactly on `(0x90,0x00)`, `"Failed"`
exactly on `(0x63,0x00)`, `"Not Supported"` exactly on `(0x6A,0x81)`, and
`"Unknown"` on every other pair; it always lands in this four-element set,
and `parse_response` computes exactly this function of `(sw1, sw2)`, so
identical inputs yield the identical outcome. -/
theorem parse_message_classifies (sw1 sw2 : Nat) :
    (parse_message sw1 sw2 = "Success" ↔ sw1 = 0x90 ∧ sw2 = 0x00) ∧
    (parse_message sw1 sw2 = "Failed" ↔ sw1 = 0x63 ∧ sw2 = 0x00) ∧
    (parse_message sw1 sw2 = "Not Supported" ↔ sw1 = 0x6A ∧ sw2 = 0x81) ∧
    (parse_message sw1 sw2 = "Unknown" ↔
      ¬(sw1 = 0x90 ∧ sw2 = 0x00) ∧ ¬(sw1 = 0x63 ∧ sw2 = 0x00) ∧
      ¬(sw1 = 0x6A ∧ sw2 = 0x81)) ∧
    (parse_message sw1 sw2 = "Success" ∨ parse_message sw1 sw2 = "Failed" ∨
      parse_message sw1 sw2 = "Not Supported" ∨
      parse_message sw1 sw2 = "Unknown") ∧
    (∀ d : List Nat,
      (parse_response ⟨d, sw1, sw2⟩).message = parse_message sw1 sw2) := by
  refine ⟨?_, ?_, ?_, ?_, ?_, fun d => rfl⟩ <;>
    (unfold parse_message; split_ifs with h1 h2 h3) <;> simp_all

/-- C6 counterexample: for a 6-byte key, the encoded load-auth-key command
has length 11 (5-byte header plus 6 key bytes), not 10; `5 + key.length` is
itself 11, so the claimed total of 10 bytes is wrong even on its own terms. -/
theorem load_auth_key_length_not_ten :
    (loadAuthKeyCmd [0xFF, 0xFF, 0xFF, 0xFF, 0xFF, 0xFF] 0).length = 11 ∧
    ¬(loadAuthKeyCmd [0xFF, 0xFF, 0xFF, 0xFF, 0xFF, 0xFF] 0).length = 10 ∧
    5 + ([0xFF, 0xFF, 0xFF, 0xFF, 0xFF, 0xFF] : List Nat).length = 11 := by
  decide

/-- C6 amended: for every 6-byte key and slot in {0,1}, `__load_auth_key`
encodes exactly the header `[0xFF, 0x82, 0x00, slot, 0x06]` followed by the
6 key bytes, transmits it, and the encoded command always has length 11,
which is `5 + key.length`. -/
theorem load_auth_key_encoding (transmit : List Nat → TransmitResult)
    (key : List Nat) (slot : Nat) (hk : key.length = 6)
    (hs : slot = 0 ∨ slot = 1) :
    load_auth_key transmit key slot =
      (Except.ok (parse_response (transmit ([0xFF, 0x82, 0x00, slot, 0x06] ++ key))),
       [[0xFF, 0x82, 0x00, slot, 0x06] ++ key]) ∧
    (loadAuthKeyCmd key slot).length = 11 ∧
    (loadAuthKeyCmd key slot).length = 5 + key.length := by
  have hcond : key.length = 6 ∧ (slot = 0 ∨ slot = 1) := ⟨hk, hs⟩
  refine ⟨?_, ?_, ?_⟩
  · simp [load_auth_key, loadAuthKeyCmd, hcond]
  · simp [loadAuthKeyCmd, hk]
  · simp [loadAuthKeyCmd, hk]

/-- Witness for `load_auth_key_encoding` at catalog key 1 and slot 1. -/
theorem load_auth_key_encoding_witness :
    ([0xA0, 0xB0, 0xC0, 0xD0, 0xE0, 0xF0] : List Nat).length = 6 ∧
    ((1 : Nat) = 0 ∨ (1 : Nat) = 1) ∧
    (load_auth_key (fun _ => ⟨[], 0x90, 0x00⟩)
        [0xA0, 0xB0, 0xC0, 0xD0, 0xE0, 0xF0] 1 =
      (Except.ok (parse_response ⟨[], 0x90, 0x00⟩),
       [[0xFF, 0x82, 0x00, 1, 0x06] ++ [0xA0, 0xB0, 0xC0, 0xD0, 0xE0, 0xF0]]) ∧
     (loadAuthKeyCmd [0xA0, 0xB0, 0xC0, 0xD0, 0xE0, 0xF0] 1).length = 11 ∧
     (loadAuthKeyCmd [0xA0, 0xB0, 0xC0, 0xD0, 0xE0, 0xF0] 1).length =
       5 + ([0xA0, 0xB0, 0xC0, 0xD0, 0xE0, 0xF0] : List Nat).length) :=
  ⟨rfl, Or.inr rfl,
   load_auth_key_encoding (fun _ => ⟨[], 0x90, 0x00⟩)
     [0xA0, 0xB0, 0xC0, 0xD0, 0xE0, 0xF0] 1 rfl (Or.inr rfl)⟩

/-- C2: for every 6-byte key, block and key type in {0,1}: if the load
phase's parsed message is not `'Success'`, `auth` returns exactly the load
response and its transcript holds only the load command (the commit command
is never built or transmitted); if the load phase reports `'Success'` (and
the block passes the bounds assert), `auth` returns the commit response for
that block and key type, with the commit command using the same slot number
(`key_type`) as the load command. -/
theorem auth_two_phase (transmit : List Nat → TransmitResult)
    (card : Option TrackedCard) (key : List Nat) (block key_type : Nat)
    (hk : key.length = 6) (ht : key_type = 0 ∨ key_type = 1) :
    ((parse_response (transmit (loadAuthKeyCmd key key_type))).message ≠ "Success" →
      auth transmit card key block key_type =
        (Except.ok (parse_response (transmit (loadAuthKeyCmd key key_type))),
         [loadAuthKeyCmd key key_type])) ∧
    ((parse_response (transmit (loadAuthKeyCmd key key_type))).message = "Success" →
      blockBoundOk card block = Except.ok true →
      auth transmit card key block key_type =
        (Except.ok (parse_response (transmit (commitAuthCmd block key_type key_type))),
         [loadAuthKeyCmd key key_type, commitAuthCmd block key_type key_type])) := by
  have hcond : key.length = 6 ∧ (key_type = 0 ∨ key_type = 1) := ⟨hk, ht⟩
  constructor
  · intro hfail
    simp [auth, load_auth_key, hcond, hfail]
  · intro hsucc hbound
    simp [auth, load_auth_key, commit_auth, hcond, hsucc, hbound]

/-- Witness for `auth_two_phase`: a transport whose every response is
`(0x90, 0x00)`, the all-`0xFF` key, block 3, key type 1, no tracked card. -/
theorem auth_two_phase_witness :
    ([0xFF, 0xFF, 0xFF, 0xFF, 0xFF, 0xFF] : List Nat).length = 6 ∧
    ((1 : Nat) = 0 ∨ (1 : Nat) = 1) ∧
    auth (fun _ => ⟨[], 0x90, 0x00⟩) none
        [0xFF, 0xFF, 0xFF, 0xFF, 0xFF, 0xFF] 3 1 =
      (Except.ok (parse_response ⟨[], 0x90, 0x00⟩),
       [loadAuthKeyCmd [0xFF, 0xFF, 0xFF, 0xFF, 0xFF, 0xFF] 1,
        commitAuthCmd 3 1 1]) :=
  ⟨rfl, Or.inr rfl,
   (auth_two_phase (fun _ => ⟨[], 0x90, 0x00⟩) none
      [0xFF, 0xFF, 0xFF, 0xFF, 0xFF, 0xFF] 3 1 rfl (Or.inr rfl)).2
     rfl rfl⟩

/-- C8: evaluation of card identification and block-bounds checking.
Recognized type codes give 64 blocks (1K) and 256 blocks (4K); but an
unrecognized type code makes `.get` return the plain string `'UNKNOWN'`,
`_block_max` then evaluates `'UNKNOWN'[1] = 'N'`, and the bounds assert
`0 <= block < 'N'` raises `TypeError` for every block — it does not pass. -/
theorem unknown_card_bounds_check_raises :
    parserCardGet (0x00, 0x01) = CardType.known "MIFARE Classic 1K" 64 ∧
    parserCardGet (0x00, 0x02) = CardType.known "MIFARE Classic 4K" 256 ∧
    cardTypeOfAtr demoCard.atr = CardType.known "MIFARE Classic 1K" 64 ∧
    cardTypeOfAtr unknownDemoCard.atr = CardType.unknownStr "UNKNOWN" ∧
    block_max (some ⟨unknownDemoCard, CardType.unknownStr "UNKNOWN"⟩) =
      Except.ok (PyVal.str "N") ∧
    (∀ block : Nat,
      blockBoundOk (some ⟨unknownDemoCard, CardType.unknownStr "UNKNOWN"⟩)
          block =
        Except.error "TypeError") ∧
    commit_auth (fun _ => ⟨[], 0x90, 0x00⟩)
        (some ⟨unknownDemoCard, CardType.unknownStr "UNKNOWN"⟩) 5 0 0 =
      (Except.error "TypeError", []) ∧
    block_read (fun _ => ⟨[], 0x90, 0x00⟩)
        (some ⟨unknownDemoCard, CardType.unknownStr "UNKNOWN"⟩) 5 16 =
      (Except.error "TypeError", []) :=
  ⟨rfl, rfl, rfl, rfl, rfl, fun _ => rfl, rfl, rfl⟩

/-- Skipping a prefix of card-absent observations does not change the
outcome of the `execute` loop. -/
theorem executeLoop_all_false {α : Type}
    (attempt : Unit → List ConnEvent × Except String α)
    (reader card : Bool) :
    ∀ obs : List Bool, (∀ b ∈ obs, b = false) →
      executeLoop attempt obs reader card = executeLoop attempt [] reader card
  | [], _ => rfl
  | b :: rest, h => by
    have hb : b = false := h b (by simp)
    subst hb
    simpa [executeLoop] using
      executeLoop_all_false attempt reader card rest
        (fun x hx => h x (by simp [hx]))

/-- C3: if every in-timeout iteration of `execute` sees no card (so nothing
is ever transmitted), the timeout branch raises
`'No reader is connected with USB'` when no reader is tracked, else
`'No tag is connected'` when no card is tracked, else `'Fatal error'`; the
three messages are pairwise distinct, so the caller can tell the failures
apart, and the loop terminates in this error rather than hanging. -/
theorem execute_timeout_error_selection {α : Type}
    (attempt : Unit → List ConnEvent × Except String α)
    (obs : List Bool) (reader card : Bool)
    (h : ∀ b ∈ obs, b = false) :
    executeLoop attempt obs reader card =
      ([], Except.error
        (if reader = false then "No reader is connected with USB"
         else if card = false then "No tag is connected"
         else "Fatal error")) ∧
    ("No reader is connected with USB" ≠ "No tag is connected" ∧
     "No reader is connected with USB" ≠ "Fatal error" ∧
     "No tag is connected" ≠ "Fatal error") := by
  refine ⟨?_, by decide, by decide, by decide⟩
  rw [executeLoop_all_false attempt reader card obs h]
  rfl

/-- Witness for `execute_timeout_error_selection`: two card-less loop
iterations with no reader tracked end in the no-reader error. -/
theorem execute_timeout_error_selection_witness :
    (∀ b ∈ [false, false], b = false) ∧
    executeLoop
        (fun _ => ([], Except.ok (⟨[], 0x90, 0x00⟩ : TransmitResult)))
        [false, false] false false =
      ([], Except.error "No reader is connected with USB") := by
  refine ⟨by decide, ?_⟩
  have h := (execute_timeout_error_selection
    (fun _ => ([], Except.ok (⟨[], 0x90, 0x00⟩ : TransmitResult)))
    [false, false] false false (by decide)).1
  simpa using h

/-- C4 counterexample: when `connect()` raises, the connection attribute
has already been set by `createConnection()` but the `try/finally` around
`transmit` has not been entered, so `execute` propagates the error without
ever releasing the connection. -/
theorem connect_raise_skips_release :
    transmitAttempt true (Except.ok (⟨[], 0x90, 0x00⟩ : TransmitResult)) =
      ([ConnEvent.created], Except.error "CardConnectionException") ∧
    ConnEvent.released ∉
      (transmitAttempt true
        (Except.ok (⟨[], 0x90, 0x00⟩ : TransmitResult))).1 :=
  ⟨rfl, by decide⟩

/-- C4 amended: on the exit paths that reach the `try` block — `transmit`
returning normally and `transmit` raising — the transient connection is
released before `execute` returns or propagates, and transport errors
propagate out of the `execute` loop unswallowed; when `connect()` raises,
the error also propagates unswallowed but the created connection is not
released. -/
theorem transmit_paths_release_and_propagate {α : Type} (v : α) (e : String)
    (obs : List Bool) (reader card : Bool) :
    (transmitAttempt false (Except.ok v) =
      ([ConnEvent.created, ConnEvent.connected, ConnEvent.transmitted,
        ConnEvent.released], Except.ok v)) ∧
    (transmitAttempt false (Except.error e : Except String α) =
      ([ConnEvent.created, ConnEvent.connected, ConnEvent.released],
       Except.error e)) ∧
    ConnEvent.released ∈ (transmitAttempt false (Except.ok v)).1 ∧
    ConnEvent.released ∈
      (transmitAttempt false (Except.error e : Except String α)).1 ∧
    (executeLoop (fun _ => transmitAttempt false (Except.error e : Except String α))
        (true :: obs) reader card =
      ([ConnEvent.created, ConnEvent.connected, ConnEvent.released],
       Except.error e)) ∧
    (transmitAttempt true (Except.ok v) =
      ([ConnEvent.created], Except.error "CardConnectionException")) := by
  refine ⟨rfl, rfl, by simp [transmitAttempt], by simp [transmitAttempt],
    rfl, rfl⟩

/-- The inner key loop of `main` tries exactly the catalog prefix up to and
including the first successful key, and reports the first success. -/
theorem searchKeyLoop_spec (am : List Nat → String) :
    ∀ keys : List (List Nat),
      searchKeyLoop am keys =
        (keys.takeWhile (fun k => !(am k == "Success")) ++
          (keys.dropWhile (fun k => !(am k == "Success"))).take 1,
         keys.find? (fun k => am k == "Success"))
  | [] => rfl
  | k :: rest => by
    have ih := searchKeyLoop_spec am rest
    by_cases h : (am k == "Success") = true
    · simp [searchKeyLoop, h, List.find?]
    · simp only [Bool.not_eq_true] at h
      simp [searchKeyLoop, h, List.find?, ih]

set_option maxRecDepth 8192 in
/-- C7: for every authentication oracle and `(block, keyType)` combination,
the key-search driver tries catalog keys in catalog order, the first key
reporting `'Success'` is the reported one, and no later catalog key is
tried for that combination; for the mocked card succeeding only at
`(block 3, keyType 1, catalog index 5)`, the combination tries exactly
catalog keys 0-5 in order and the whole 64-block, 2-key-type sweep reports
exactly `(3, 1, catalog[5])`. -/
theorem key_search_first_catalog_key
    (authMessage : Nat → Nat → List Nat → String) (block ktype : Nat) :
    ((searchCombo authMessage block ktype).2 =
      default_keys.find? (fun k => authMessage block ktype k == "Success") ∧
     (searchCombo authMessage block ktype).1 =
      default_keys.takeWhile
          (fun k => !(authMessage block ktype k == "Success")) ++
        (default_keys.dropWhile
          (fun k => !(authMessage block ktype k == "Success"))).take 1) ∧
    searchCombo mockAuthMessage 3 1 =
      (default_keys.take 6, some [0x4D, 0x3A, 0x99, 0xC3, 0x51, 0xDD]) ∧
    (keySearch mockAuthMessage).filter (fun x => x.2.2.isSome) =
      [(3, 1, some [0x4D, 0x3A, 0x99, 0xC3, 0x51, 0xDD])] := by
  refine ⟨⟨?_, ?_⟩, ?_, ?_⟩
  · rw [searchCombo, searchKeyLoop_spec]
  · rw [searchCombo, searchKeyLoop_spec]
  · rfl
  · rfl

/-- C9: a read of the `firmware` property with an empty cache executes the
firmware command once and caches the decoded string; a read with a filled
cache returns the cached string with zero `execute` calls; in particular
the read after the first one returns the same string without executing. -/
theorem firmware_cached_single_execute (execute : List Nat → TransmitResult) :
    (firmwareRead execute none =
      (firmwareDecode (parse_response (execute firmwareCmd)),
       some (firmwareDecode (parse_response (execute firmwareCmd))), 1)) ∧
    (∀ fw : String, firmwareRead execute (some fw) = (fw, some fw, 0)) ∧
    (firmwareRead execute (firmwareRead execute none).2.1 =
      ((firmwareRead execute none).1, (firmwareRead execute none).2.1, 0)) :=
  ⟨rfl, fun _ => rfl, rfl⟩

/-- C10: in both dict literals the later `(0xF0, 0x11)` entry overwrites
the earlier one, so that key maps to `'FeliCa 424K'`, and no key of either
table ever yields `'FeliCa 212K'`. -/
theorem felica_212k_shadowed :
    dictLookup parserCardEntries (0xF0, 0x11) =
      some ("FeliCa 424K", 0xFFFFFFFF) ∧
    dictLookup factoryEntries (0xF0, 0x11) = some "FeliCa 424K" ∧
    parserCardGet (0xF0, 0x11) = CardType.known "FeliCa 424K" 0xFFFFFFFF ∧
    (¬ ∃ k : Nat × Nat, ∃ v : String × Nat,
        dictLookup parserCardEntries k = some v ∧ v.1 = "FeliCa 212K") ∧
    (¬ ∃ k : Nat × Nat, dictLookup factoryEntries k = some "FeliCa 212K") := by
  refine ⟨rfl, rfl, rfl, ?_, ?_⟩
  · rintro ⟨⟨k1, k2⟩, v, hv, hl⟩
    simp [dictLookup, parserCardEntries] at hv
    split_ifs at hv <;>
      first
        | exact Option.noConfusion hv
        | (injection hv with hv2; subst hv2; exact absurd hl (by decide))
  · rintro ⟨⟨k1, k2⟩, hv⟩
    simp [dictLookup, factoryEntries] at hv
    split_ifs at hv <;>
      first
        | exact Option.noConfusion hv
        | (injection hv with hv2; exact absurd hv2 (by decide))

/-- C1: evaluation of the hotplug updates at the failing sequence.  From a
fresh session, attach an ACR122U reader, insert a MIFARE Classic 1K card on
it, then deliver a reader-removal notification for that reader: `update`
clears the tracked reader but leaves the tracked card behind, so the state
observed after the removal has `card = some _` with `reader = none`,
violating the claimed invariant. -/
theorem reader_removal_leaves_card_tracked :
    (update_card (update "ACR122U" ⟨none, none⟩ [demoReader] [])
        [demoCard] []).map
      (fun s1 => update "ACR122U" s1 [] [demoReader]) =
    Except.ok { reader := none,
                card := some ⟨demoCard, CardType.known "MIFARE Classic 1K" 0x040⟩ } := by
  rfl

end ACR122Upy
